import Mathlib

/-!
Shallow embedding of the price-versioning ingestion core of the repository
(`src/DB/excel_import_script.py`, class `PublicationImporter`), together with
the relational state it manipulates (tables `products` and `prices` from
`src/DB/db_creation_script.py`).

Modelling conventions:
* SQLite tables become Lean lists of records; `AUTOINCREMENT` surrogate keys
  become explicit `next…Id` counters (SQLite rowids start at 1).
* The SQLite connection's transaction is modelled by a pair of database
  snapshots: `committed` (what is durable) and `current` (the working state
  the cursor mutates); `conn.commit()` copies `current` into `committed`,
  `conn.rollback()` copies `committed` back into `current`.
* Python scalar cell values (which may be `None`, `NaN`, a number or a
  string) are modelled by `PyVal`.  Prices are stored as exact rationals:
  the source performs no arithmetic on prices beyond `float(...)` parsing,
  so no float rounding is observable in the properties below; the decimal
  subset of Python's `float()` string grammar (sign, digits, optional
  fractional part) is modelled by `pyFloatOfString`.
* The mutable `self.stats` dict of `PublicationImporter` becomes `Stats`.
  It lives outside the database, so a rollback does not restore it — exactly
  as in the Python code.
-/

namespace BagArchive

/-- A Python cell value as it reaches `add_price` / row extraction. -/
inductive PyVal where
  | pynone
  | pynan
  | pynum (q : ℚ)
  | pystr (s : String)
deriving DecidableEq

/-- `price is None or pd.isna(price)` (line 191 of the import script). -/
def pyIsNA : PyVal → Bool
  | .pynone => true
  | .pynan => true
  | _ => false

/-- Value of a digit string, most significant first. -/
def digitsVal (cs : List Char) : ℕ :=
  cs.foldl (fun n c => n * 10 + (c.toNat - 48)) 0

/-- The decimal subset of Python `float(str)`: optional sign, an integer
part and an optional `.`-separated fractional part, at least one digit
overall.  Non-numeric text such as `"abc"` yields `none` (Python raises
`ValueError`). -/
def pyFloatOfString (s : String) : Option ℚ :=
  let cs := s.toList
  let signed : Bool × List Char :=
    match cs with
    | '-' :: rest => (true, rest)
    | '+' :: rest => (false, rest)
    | _ => (false, cs)
  let ip := signed.2.takeWhile Char.isDigit
  let rest := signed.2.dropWhile Char.isDigit
  let fp? : Option (List Char) :=
    match rest with
    | [] => some []
    | '.' :: r => if r.all Char.isDigit then some r else none
    | _ => none
  match fp? with
  | none => none
  | some fp =>
      if ip.isEmpty && fp.isEmpty then none
      else
        let mag : ℚ := (digitsVal ip : ℚ) + (digitsVal fp : ℚ) / ((10 : ℚ) ^ fp.length)
        some (if signed.1 then -mag else mag)

/-- `float(price)` for the values `add_price` can see after the `isna`
check: a number parses to itself, a string goes through the float grammar,
anything else fails with an exception (modelled as `none`). -/
def pyFloat : PyVal → Option ℚ
  | .pynum q => some q
  | .pystr s => pyFloatOfString s
  | _ => none

/-- How a `PyVal` prints inside the f-string error message of `add_price`. -/
def pyValText : PyVal → String
  | .pynone => "None"
  | .pynan => "nan"
  | .pynum q => toString q
  | .pystr s => s

/-- A row of the `products` table (timestamp columns omitted: no claim
mentions them and the source never reads them back). -/
structure Product where
  id : ℕ
  product_number : String
  description : Option String
  category : Option String
  unit : Option String
deriving DecidableEq

/-- A row of the `prices` table. -/
structure PriceRow where
  id : ℕ
  product_id : ℕ
  price : ℚ
  valid_from : String
  valid_until : Option String
  source_file : String
  is_current : Bool
deriving DecidableEq

/-- One database snapshot: both tables plus the rowid counters. -/
structure DB where
  products : List Product
  prices : List PriceRow
  nextProductId : ℕ
  nextPriceId : ℕ
deriving DecidableEq

/-- The fresh database produced by `db_creation_script.py`. -/
def emptyDB : DB :=
  { products := [], prices := [], nextProductId := 1, nextPriceId := 1 }

/-- The `self.stats` dict of `PublicationImporter`. -/
structure Stats where
  files_processed : ℕ
  products_added : ℕ
  products_updated : ℕ
  prices_added : ℕ
  errors : List String
deriving DecidableEq

def emptyStats : Stats :=
  { files_processed := 0, products_added := 0, products_updated := 0,
    prices_added := 0, errors := [] }

/-- A `PublicationImporter` connected to a database: the committed and
working snapshots of the connection plus the stats dict. -/
structure Importer where
  committed : DB
  current : DB
  stats : Stats
deriving DecidableEq

/-- A freshly constructed importer connected to a fresh database. -/
def initImporter : Importer :=
  { committed := emptyDB, current := emptyDB, stats := emptyStats }

/-- `conn.commit()`. -/
def commitTx (st : Importer) : Importer :=
  { st with committed := st.current }

/-- `conn.rollback()`. -/
def rollbackTx (st : Importer) : Importer :=
  { st with current := st.committed }

/-- The row update performed by the `UPDATE prices SET is_current = 0,
valid_until = ? WHERE product_id = ? AND is_current = 1` statement of
`add_price` (lines 203–208), applied to one row. -/
def supersedeRow (product_id : ℕ) (valid_from : String) (r : PriceRow) : PriceRow :=
  if r.product_id = product_id ∧ r.is_current = true then
    { r with is_current := false, valid_until := some valid_from }
  else r

/-- `PublicationImporter.add_price` (lines 181–216): skip `None`/`NaN`
prices, record an error for unparseable prices, otherwise supersede the
current row(s) of the product and insert the new current observation. -/
def add_price (st : Importer) (product_id : ℕ) (price : PyVal)
    (valid_from source_file : String) : Importer :=
  if pyIsNA price then st
  else
    match pyFloat price with
    | none =>
        { st with stats := { st.stats with
            errors := st.stats.errors ++
              ["Ungültiger Preis für Produkt " ++ toString product_id ++ ": "
                ++ pyValText price] } }
    | some price_value =>
        let db := st.current
        let newRow : PriceRow :=
          { id := db.nextPriceId, product_id := product_id, price := price_value,
            valid_from := valid_from, valid_until := none,
            source_file := source_file, is_current := true }
        { st with
          current := { db with
            prices := db.prices.map (supersedeRow product_id valid_from) ++ [newRow],
            nextPriceId := db.nextPriceId + 1 },
          stats := { st.stats with prices_added := st.stats.prices_added + 1 } }

/-- The `product_data` dict handed to `get_or_create_product`. -/
structure ProductData where
  product_number : Option String
  description : Option String
  category : Option String
  unit : Option String
deriving DecidableEq

/-- `PublicationImporter.get_or_create_product` (lines 124–179): raise
`ValueError` on a falsy product number, update the found product's
description/category/unit unconditionally, or insert a new product and
return `cursor.lastrowid`. -/
def get_or_create_product (st : Importer) (pd : ProductData) :
    Except String (Importer × ℕ) :=
  match pd.product_number with
  | none => .error "Produktnummer fehlt!"
  | some pn =>
    if pn = "" then .error "Produktnummer fehlt!"
    else
      match st.current.products.find? (fun p => p.product_number == pn) with
      | some p =>
          let products := st.current.products.map (fun q =>
            if q.id = p.id then
              { q with description := pd.description, category := pd.category,
                       unit := pd.unit }
            else q)
          .ok ({ st with
                 current := { st.current with products := products },
                 stats := { st.stats with
                   products_updated := st.stats.products_updated + 1 } }, p.id)
      | none =>
          let newP : Product :=
            { id := st.current.nextProductId, product_number := pn,
              description := pd.description, category := pd.category,
              unit := pd.unit }
          .ok ({ st with
                 current := { st.current with
                   products := st.current.products ++ [newP],
                   nextProductId := st.current.nextProductId + 1 },
                 stats := { st.stats with
                   products_added := st.stats.products_added + 1 } },
               st.current.nextProductId)

/-- A spreadsheet row after the per-cell extraction of lines 276–281:
`str(cell)` when the cell is present, `None` when it is `NaN`. -/
structure RawRow where
  product_number : Option String
  description : Option String
  category : Option String
  unit : Option String
  price : PyVal
deriving DecidableEq

/-- How one iteration of the import loop ends: counted as imported, counted
as skipped, or caught by the per-row `except` clause. -/
inductive RowOutcome where
  | imported
  | skipped
  | errored
deriving DecidableEq

/-- One iteration of the row loop of `import_excel_file` (lines 273–300):
skip rows whose product number is missing/blank/`'nan'`, resolve the
product, add the price, and catch any exception as a per-row error. -/
def processRow (st : Importer) (valid_from filename : String) (idx : ℕ)
    (row : RawRow) : Importer × RowOutcome :=
  match row.product_number with
  | none => (st, .skipped)
  | some pn =>
    if pn = "" ∨ pn = "nan" then (st, .skipped)
    else
      match get_or_create_product st
          ⟨some pn, row.description, row.category, row.unit⟩ with
      | .error e =>
          ({ st with stats := { st.stats with
               errors := st.stats.errors ++
                 ["Zeile " ++ toString (idx + 2) ++ ": " ++ e] } }, .errored)
      | .ok (st1, product_id) =>
          (add_price st1 product_id row.price valid_from filename, .imported)

/-- The whole row loop, threading the state and accumulating
`imported_count` and `skipped_count`. -/
def runRowsFrom (valid_from filename : String) (st : Importer) (idx : ℕ) :
    List RawRow → Importer × ℕ × ℕ
  | [] => (st, 0, 0)
  | row :: rest =>
      let step := processRow st valid_from filename idx row
      let tail := runRowsFrom valid_from filename step.1 (idx + 1) rest
      match step.2 with
      | .imported => (tail.1, tail.2.1 + 1, tail.2.2)
      | .skipped => (tail.1, tail.2.1, tail.2.2 + 1)
      | .errored => (tail.1, tail.2.1, tail.2.2)

/-- The successful path of `import_excel_file` (lines 273–311) once the
spreadsheet has been parsed into rows: run the loop, commit, bump
`files_processed`.  An empty frame returns `false` without touching the
transaction (lines 249–251). -/
def import_excel_rows (st : Importer) (valid_from filename : String)
    (rows : List RawRow) : Importer × Bool :=
  if rows = [] then (st, false)
  else
    let looped := runRowsFrom valid_from filename st 0 rows
    let st2 := commitTx looped.1
    ({ st2 with stats := { st2.stats with
        files_processed := st2.stats.files_processed + 1 } }, true)

/-- The outer `except` path of `import_excel_file` (lines 313–318): a
catastrophic exception (e.g. a storage failure) interrupts the batch after
`k` rows, before the commit; the connection is rolled back and the failure
is recorded as a file-level error. -/
def import_excel_rows_aborted (st : Importer) (valid_from filename : String)
    (rows : List RawRow) (k : ℕ) (exnMsg : String) : Importer × Bool :=
  let looped := runRowsFrom valid_from filename st 0 (rows.take k)
  let st2 := rollbackTx looped.1
  ({ st2 with stats := { st2.stats with
      errors := st2.stats.errors ++
        ["Fehler bei " ++ filename ++ ": " ++ exnMsg] } }, false)

/-- All observations of one product, in insertion order. -/
def pricesFor (db : DB) (pid : ℕ) : List PriceRow :=
  db.prices.filter (fun r => r.product_id == pid)

/-- The observations of one product marked current. -/
def currentRowsFor (db : DB) (pid : ℕ) : List PriceRow :=
  db.prices.filter (fun r => r.product_id == pid && r.is_current)

/-- The at-most-one-current invariant of the price ledger. -/
def atMostOneCurrent (db : DB) : Prop :=
  ∀ pid, (currentRowsFor db pid).length ≤ 1

/-- One `record_price` request, for iterating `add_price`. -/
structure PriceCall where
  product_id : ℕ
  price : PyVal
  valid_from : String
  source_file : String
deriving DecidableEq

/-- Apply a sequence of `record_price` requests in order. -/
def applyCalls (st : Importer) : List PriceCall → Importer
  | [] => st
  | c :: cs =>
      applyCalls (add_price st c.product_id c.price c.valid_from c.source_file) cs

theorem supersedeRow_product_id (pid : ℕ) (vf : String) (r : PriceRow) :
    (supersedeRow pid vf r).product_id = r.product_id := by
  unfold supersedeRow; split <;> rfl

theorem supersedeRow_not_current (pid : ℕ) (vf : String) (r : PriceRow) :
    ((supersedeRow pid vf r).product_id == pid && (supersedeRow pid vf r).is_current) = false := by
  unfold supersedeRow
  split
  · next h => simp
  · next h =>
    by_cases h1 : r.product_id = pid
    · have h2 : r.is_current = false := by
        cases hc : r.is_current with
        | false => rfl
        | true => exact absurd ⟨h1, hc⟩ h
      simp [h2]
    · simp [h1]

theorem currentRowsFor_map_supersede (l : List PriceRow) (pid : ℕ) (vf : String) :
    (l.map (supersedeRow pid vf)).filter (fun r => r.product_id == pid && r.is_current) = [] := by
  rw [List.filter_eq_nil_iff]
  intro a ha
  rcases List.mem_map.mp ha with ⟨r, _, rfl⟩
  simp [supersedeRow_not_current]

theorem pred_other_supersede (pid q : ℕ) (vf : String) (hq : q ≠ pid) (r : PriceRow) :
    ((supersedeRow pid vf r).product_id == q && (supersedeRow pid vf r).is_current) =
      (r.product_id == q && r.is_current) := by
  unfold supersedeRow
  split
  · next h =>
    have hb : (r.product_id == q) = false := by
      simp only [beq_eq_false_iff_ne]
      rw [h.1]
      exact fun hh => hq hh.symm
    simp [hb]
  · rfl

theorem filter_other_map_supersede (l : List PriceRow) (pid q : ℕ) (vf : String)
    (hq : q ≠ pid) :
    (l.map (supersedeRow pid vf)).filter (fun r => r.product_id == q && r.is_current) =
      l.filter (fun r => r.product_id == q && r.is_current) := by
  induction l with
  | nil => rfl
  | cons r t ih =>
    simp only [List.map_cons, List.filter_cons, pred_other_supersede pid q vf hq r]
    split
    · next h =>
      have hr : supersedeRow pid vf r = r := by
        unfold supersedeRow
        split
        · next hc =>
          exfalso
          have : (r.product_id == q) = true := by
            rw [Bool.and_eq_true] at h; exact h.1
          rw [beq_iff_eq] at this
          exact hq (by rw [← this, hc.1])
        · rfl
      rw [hr, ih]
    · exact ih

theorem pricesFor_map_supersede (l : List PriceRow) (pid q : ℕ) (vf : String) :
    (l.map (supersedeRow pid vf)).filter (fun r => r.product_id == q) =
      (l.filter (fun r => r.product_id == q)).map (supersedeRow pid vf) := by
  rw [List.filter_map]
  congr 1
  apply List.filter_congr
  intro r _
  simp [supersedeRow_product_id]

theorem add_price_current_NA (st : Importer) (pid : ℕ) (pr : PyVal) (vf sf : String)
    (hna : pyIsNA pr = true) : add_price st pid pr vf sf = st := by
  unfold add_price; simp [hna]

theorem add_price_current_err (st : Importer) (pid : ℕ) (pr : PyVal) (vf sf : String)
    (hna : pyIsNA pr = false) (hfq : pyFloat pr = none) :
    (add_price st pid pr vf sf).current = st.current := by
  unfold add_price; simp [hna, hfq]

theorem add_price_prices_ok (st : Importer) (pid : ℕ) (pr : PyVal) (vf sf : String)
    (q : ℚ) (hna : pyIsNA pr = false) (hfq : pyFloat pr = some q) :
    (add_price st pid pr vf sf).current.prices =
      st.current.prices.map (supersedeRow pid vf) ++
        [{ id := st.current.nextPriceId, product_id := pid, price := q, valid_from := vf,
           valid_until := none, source_file := sf, is_current := true }] := by
  unfold add_price; simp [hna, hfq]

theorem currentRowsFor_add_price (st : Importer) (pid : ℕ) (pr : PyVal) (vf sf : String)
    (q : ℚ) (hna : pyIsNA pr = false) (hfq : pyFloat pr = some q) :
    currentRowsFor (add_price st pid pr vf sf).current pid =
      [{ id := st.current.nextPriceId, product_id := pid, price := q, valid_from := vf,
         valid_until := none, source_file := sf, is_current := true }] := by
  unfold currentRowsFor
  rw [add_price_prices_ok st pid pr vf sf q hna hfq]
  rw [List.filter_append, currentRowsFor_map_supersede]
  simp

theorem currentRowsFor_add_price_other (st : Importer) (pid : ℕ) (pr : PyVal)
    (vf sf : String) (p : ℕ) (hp : p ≠ pid) :
    currentRowsFor (add_price st pid pr vf sf).current p = currentRowsFor st.current p := by
  cases hna : pyIsNA pr with
  | true => rw [add_price_current_NA st pid pr vf sf hna]
  | false =>
    cases hfq : pyFloat pr with
    | none => rw [currentRowsFor, add_price_current_err st pid pr vf sf hna hfq]; rfl
    | some q =>
      unfold currentRowsFor
      rw [add_price_prices_ok st pid pr vf sf q hna hfq]
      rw [List.filter_append, filter_other_map_supersede _ _ _ _ hp]
      have : (({ id := st.current.nextPriceId, product_id := pid, price := q,
                 valid_from := vf, valid_until := none, source_file := sf,
                 is_current := true } : PriceRow).product_id == p
              && true) = false := by
        simp only [beq_eq_false_iff_ne, Bool.and_true]
        exact fun hh => hp hh.symm
      simp [List.filter_cons, this]

theorem add_price_preserves_invariant (st : Importer) (pid : ℕ) (pr : PyVal)
    (vf sf : String) (h : atMostOneCurrent st.current) :
    atMostOneCurrent (add_price st pid pr vf sf).current := by
  intro p
  by_cases hp : p = pid
  · subst hp
    cases hna : pyIsNA pr with
    | true => rw [add_price_current_NA st p pr vf sf hna]; exact h p
    | false =>
      cases hfq : pyFloat pr with
      | none =>
        rw [currentRowsFor, add_price_current_err st p pr vf sf hna hfq]
        exact h p
      | some q =>
        rw [currentRowsFor_add_price st p pr vf sf q hna hfq]
        simp
  · rw [currentRowsFor_add_price_other st pid pr vf sf p hp]
    exact h p

theorem applyCalls_preserves_invariant (calls : List PriceCall) :
    ∀ st : Importer, atMostOneCurrent st.current →
      atMostOneCurrent (applyCalls st calls).current := by
  induction calls with
  | nil => intro st h; exact h
  | cons c cs ih =>
    intro st h
    exact ih _ (add_price_preserves_invariant _ _ _ _ _ h)

theorem add_price_nextPriceId_ok (st : Importer) (pid : ℕ) (pr : PyVal) (vf sf : String)
    (q : ℚ) (hna : pyIsNA pr = false) (hfq : pyFloat pr = some q) :
    (add_price st pid pr vf sf).current.nextPriceId = st.current.nextPriceId + 1 := by
  unfold add_price; simp [hna, hfq]

/-- C1: For every product_id and every sequence of `record_price`
(`add_price`) calls starting from a ledger satisfying the
at-most-one-current invariant, at most one observation of each product has
`is_current = true` after any prefix of the calls: the supersede `UPDATE`
clears every currently-current row of the product before the new current
row is inserted. -/
theorem record_price_at_most_one_current (st : Importer) (calls : List PriceCall)
    (h : atMostOneCurrent st.current) (k : ℕ) :
    atMostOneCurrent (applyCalls st (calls.take k)).current :=
  applyCalls_preserves_invariant (calls.take k) st h

/-- Witness for C1 at a concrete two-call sequence from a fresh importer. -/
theorem record_price_at_most_one_current_witness :
    atMostOneCurrent initImporter.current ∧
    atMostOneCurrent (applyCalls initImporter
      (([⟨1, .pynum 10, "2024-01-01", "f1"⟩,
         ⟨1, .pynum 12, "2024-02-01", "f2"⟩] : List PriceCall).take 2)).current := by
  have h : atMostOneCurrent initImporter.current := by
    intro pid
    simp [initImporter, emptyDB, currentRowsFor]
  exact ⟨h, record_price_at_most_one_current initImporter _ h 2⟩

/-- C2: on a product with no prior observations, the first recorded price is
superseded by the second: it ends non-current with `valid_until` equal to the
second record's `valid_from`, while the second is current with null
`valid_until`. -/
theorem supersede_correctness (st : Importer) (p : ℕ)
    (hfresh : ∀ r ∈ st.current.prices, r.product_id ≠ p) :
    pricesFor (add_price (add_price st p (.pynum 10) "2024-01-01" "f1")
        p (.pynum 12) "2024-02-01" "f2").current p =
      [{ id := st.current.nextPriceId, product_id := p, price := 10,
         valid_from := "2024-01-01", valid_until := some "2024-02-01",
         source_file := "f1", is_current := false },
       { id := st.current.nextPriceId + 1, product_id := p, price := 12,
         valid_from := "2024-02-01", valid_until := none, source_file := "f2",
         is_current := true }] := by
  have h1 : st.current.prices.filter (fun r => r.product_id == p) = [] := by
    rw [List.filter_eq_nil_iff]
    intro r hr
    simpa using hfresh r hr
  rw [pricesFor]
  rw [add_price_prices_ok _ p (.pynum 12) "2024-02-01" "f2" 12 rfl rfl]
  rw [add_price_prices_ok st p (.pynum 10) "2024-01-01" "f1" 10 rfl rfl]
  rw [add_price_nextPriceId_ok st p (.pynum 10) "2024-01-01" "f1" 10 rfl rfl]
  rw [List.map_append, List.filter_append, List.filter_append]
  rw [pricesFor_map_supersede, pricesFor_map_supersede, h1]
  simp [supersedeRow]

/-- Witness for C2 on a fresh importer and product number 1. -/
theorem supersede_correctness_witness :
    (∀ r ∈ initImporter.current.prices, r.product_id ≠ 1) ∧
    pricesFor (add_price (add_price initImporter 1 (.pynum 10) "2024-01-01" "f1")
        1 (.pynum 12) "2024-02-01" "f2").current 1 =
      [{ id := 1, product_id := 1, price := 10, valid_from := "2024-01-01",
         valid_until := some "2024-02-01", source_file := "f1", is_current := false },
       { id := 2, product_id := 1, price := 12, valid_from := "2024-02-01",
         valid_until := none, source_file := "f2", is_current := true }] := by
  have h : ∀ r ∈ initImporter.current.prices, r.product_id ≠ 1 := by
    simp [initImporter, emptyDB]
  exact ⟨h, supersede_correctness initImporter 1 h⟩

/-- C9: after any nonempty sequence of accepted `record_price` calls for one
product, the unique current observation is the one inserted by the most
recent call — it carries that call's price, `valid_from` and `source_file`
regardless of how the supplied dates are ordered. -/
theorem current_is_rolling_pointer (calls : List PriceCall) (st : Importer)
    (pid : ℕ) (c : PriceCall)
    (hall : ∀ d ∈ calls, d.product_id = pid ∧ pyIsNA d.price = false ∧
      (pyFloat d.price).isSome = true)
    (hlast : calls.getLast? = some c) :
    ∃ r : PriceRow, currentRowsFor (applyCalls st calls).current pid = [r] ∧
      pyFloat c.price = some r.price ∧ r.valid_from = c.valid_from ∧
      r.source_file = c.source_file ∧ r.is_current = true ∧
      r.valid_until = none := by
  revert hall hlast
  induction calls generalizing st with
  | nil =>
    intro hall hlast
    simp at hlast
  | cons d cs ih =>
    intro hall hlast
    cases cs with
    | nil =>
      have hd := hall d (by simp)
      rcases Option.isSome_iff_exists.mp hd.2.2 with ⟨q, hq⟩
      have hc : d = c := by simpa using hlast
      subst hc
      refine ⟨{ id := st.current.nextPriceId, product_id := pid, price := q,
                valid_from := d.valid_from, valid_until := none,
                source_file := d.source_file, is_current := true }, ?_, hq, rfl, rfl, rfl, rfl⟩
      show currentRowsFor (add_price st d.product_id d.price d.valid_from
        d.source_file).current pid = _
      rw [hd.1]
      exact currentRowsFor_add_price st pid d.price d.valid_from d.source_file q hd.2.1 hq
    | cons e t =>
      rw [List.getLast?_cons_cons] at hlast
      show ∃ r, currentRowsFor (applyCalls
        (add_price st d.product_id d.price d.valid_from d.source_file) (e :: t)).current pid = [r] ∧ _
      exact ih _ (fun x hx => hall x (List.mem_cons_of_mem d hx)) hlast

/-- Witness for C9: two calls with out-of-order dates; the later call's
observation is the current one. -/
theorem current_is_rolling_pointer_witness :
    (∀ d ∈ ([⟨1, .pynum 10, "2024-05-01", "f1"⟩,
             ⟨1, .pynum 12, "2024-02-01", "f2"⟩] : List PriceCall),
      d.product_id = 1 ∧ pyIsNA d.price = false ∧ (pyFloat d.price).isSome = true) ∧
    (∃ r : PriceRow, currentRowsFor (applyCalls initImporter
        ([⟨1, .pynum 10, "2024-05-01", "f1"⟩,
          ⟨1, .pynum 12, "2024-02-01", "f2"⟩] : List PriceCall)).current 1 = [r] ∧
      pyFloat (PyVal.pynum 12) = some r.price ∧ r.valid_from = "2024-02-01" ∧
      r.source_file = "f2" ∧ r.is_current = true ∧ r.valid_until = none) := by
  have h : ∀ d ∈ ([⟨1, .pynum 10, "2024-05-01", "f1"⟩,
             ⟨1, .pynum 12, "2024-02-01", "f2"⟩] : List PriceCall),
      d.product_id = 1 ∧ pyIsNA d.price = false ∧ (pyFloat d.price).isSome = true := by
    intro d hd
    simp only [List.mem_cons, List.not_mem_nil, or_false] at hd
    rcases hd with rfl | rfl <;> exact ⟨rfl, rfl, rfl⟩
  exact ⟨h, current_is_rolling_pointer _ initImporter 1
    ⟨1, .pynum 12, "2024-02-01", "f2"⟩ h rfl⟩

theorem add_price_err_state (st : Importer) (pid : ℕ) (pr : PyVal) (vf sf : String)
    (hna : pyIsNA pr = false) (hfq : pyFloat pr = none) :
    add_price st pid pr vf sf =
      { st with stats := { st.stats with errors := st.stats.errors ++
          ["Ungültiger Preis für Produkt " ++ toString pid ++ ": " ++ pyValText pr] } } := by
  unfold add_price; simp [hna, hfq]

theorem add_price_ok_state (st : Importer) (pid : ℕ) (pr : PyVal) (vf sf : String)
    (q : ℚ) (hna : pyIsNA pr = false) (hfq : pyFloat pr = some q) :
    add_price st pid pr vf sf =
      { st with
        current := { st.current with
          prices := st.current.prices.map (supersedeRow pid vf) ++
            [{ id := st.current.nextPriceId, product_id := pid, price := q,
               valid_from := vf, valid_until := none, source_file := sf,
               is_current := true }],
          nextPriceId := st.current.nextPriceId + 1 },
        stats := { st.stats with prices_added := st.stats.prices_added + 1 } } := by
  unfold add_price; simp [hna, hfq]

/-- C8: `record_price` is not idempotent for same-day re-imports: two calls
with identical arguments append two observations — the first new row ends up
superseded (non-current, `valid_until` = the shared date) and the second
becomes current, so the product's observation count grows by two. -/
theorem same_day_reimport_duplicates (st : Importer) (pid : ℕ) (q : ℚ) (d sf : String) :
    ∃ l : List PriceRow,
      (add_price (add_price st pid (.pynum q) d sf) pid (.pynum q) d sf).current.prices =
        l ++ [{ id := st.current.nextPriceId, product_id := pid, price := q,
                valid_from := d, valid_until := some d, source_file := sf,
                is_current := false },
              { id := st.current.nextPriceId + 1, product_id := pid, price := q,
                valid_from := d, valid_until := none, source_file := sf,
                is_current := true }] ∧
      l.length = st.current.prices.length ∧
      (add_price (add_price st pid (.pynum q) d sf) pid (.pynum q) d sf).stats.prices_added
        = st.stats.prices_added + 2 := by
  refine ⟨(st.current.prices.map (supersedeRow pid d)).map (supersedeRow pid d),
    ?_, ?_, ?_⟩
  · rw [add_price_prices_ok _ pid (.pynum q) d sf q rfl rfl]
    rw [add_price_prices_ok st pid (.pynum q) d sf q rfl rfl]
    rw [add_price_nextPriceId_ok st pid (.pynum q) d sf q rfl rfl]
    rw [List.map_append]
    simp [supersedeRow]
  · simp
  · rw [add_price_ok_state _ pid (.pynum q) d sf q rfl rfl]
    rw [add_price_ok_state st pid (.pynum q) d sf q rfl rfl]

/-- A ledger holding one product with one current observation at price 10. -/
def c3State : Importer :=
  { committed := emptyDB,
    current := { products := [{ id := 1, product_number := "P1", description := none,
                                category := none, unit := none }],
                 prices := [{ id := 1, product_id := 1, price := 10,
                              valid_from := "2024-01-01", valid_until := none,
                              source_file := "f1", is_current := true }],
                 nextProductId := 2, nextPriceId := 2 },
    stats := emptyStats }

/-- Counterexample to C3: with price −5 the call is NOT rejected.  `float(-5)`
succeeds (there is no positivity check in `add_price`), so a new observation
is inserted, the existing current row is flipped to non-current, and
`prices_added` is incremented. -/
theorem price_rejection_cex :
    (add_price c3State 1 (.pynum (-5)) "2024-02-01" "f2").current.prices.length = 2 ∧
    (add_price c3State 1 (.pynum (-5)) "2024-02-01" "f2").stats.prices_added =
      c3State.stats.prices_added + 1 ∧
    ¬ ((add_price c3State 1 (.pynum (-5)) "2024-02-01" "f2").current = c3State.current) ∧
    currentRowsFor (add_price c3State 1 (.pynum (-5)) "2024-02-01" "f2").current 1 =
      [{ id := 2, product_id := 1, price := -5, valid_from := "2024-02-01",
         valid_until := none, source_file := "f2", is_current := true }] := by
  decide

/-- C3 amended: an unparseable price such as `"abc"` inserts nothing, leaves
both database snapshots untouched, appends exactly one error entry and does
not bump `prices_added`; but a negative numeric price such as −5 parses as a
float and IS accepted — it supersedes the current observation, inserts a new
current one and increments `prices_added`.  `add_price` checks parseability
only, not positivity or finiteness. -/
theorem price_rejection_amended (st : Importer) (pid : ℕ) (vf sf : String) :
    (add_price st pid (.pystr "abc") vf sf).current = st.current ∧
    (add_price st pid (.pystr "abc") vf sf).committed = st.committed ∧
    (add_price st pid (.pystr "abc") vf sf).stats.prices_added =
      st.stats.prices_added ∧
    (add_price st pid (.pystr "abc") vf sf).stats.errors =
      st.stats.errors ++ ["Ungültiger Preis für Produkt " ++ toString pid ++ ": abc"] ∧
    (add_price st pid (.pynum (-5)) vf sf).current.prices.length =
      st.current.prices.length + 1 ∧
    (add_price st pid (.pynum (-5)) vf sf).stats.prices_added =
      st.stats.prices_added + 1 := by
  have habc : pyFloat (.pystr "abc") = none := by decide
  have hmsg : (": " ++ "abc" : String) = ": abc" := by decide
  rw [add_price_err_state st pid (.pystr "abc") vf sf rfl habc]
  rw [add_price_ok_state st pid (.pynum (-5)) vf sf (-5) rfl rfl]
  refine ⟨rfl, rfl, rfl, ?_, ?_, rfl⟩
  · simp only [pyValText]
    rw [String.append_assoc, hmsg]
  · simp

theorem get_or_create_create (st : Importer) (pd : ProductData) (pn : String)
    (hpn : pd.product_number = some pn) (hne : pn ≠ "")
    (hfind : st.current.products.find? (fun p => p.product_number == pn) = none) :
    get_or_create_product st pd = .ok
      ({ st with
         current := { st.current with
           products := st.current.products ++
             [{ id := st.current.nextProductId, product_number := pn,
                description := pd.description, category := pd.category,
                unit := pd.unit }],
           nextProductId := st.current.nextProductId + 1 },
         stats := { st.stats with products_added := st.stats.products_added + 1 } },
       st.current.nextProductId) := by
  simp only [get_or_create_product, hpn]
  rw [if_neg hne, hfind]

theorem get_or_create_update (st : Importer) (pd : ProductData) (pn : String)
    (p : Product)
    (hpn : pd.product_number = some pn) (hne : pn ≠ "")
    (hfind : st.current.products.find? (fun x => x.product_number == pn) = some p) :
    get_or_create_product st pd = .ok
      ({ st with
         current := { st.current with
           products := st.current.products.map (fun q =>
             if q.id = p.id then
               { q with description := pd.description, category := pd.category,
                        unit := pd.unit }
             else q) },
         stats := { st.stats with
           products_updated := st.stats.products_updated + 1 } },
       p.id) := by
  simp only [get_or_create_product, hpn]
  rw [if_neg hne, hfind]

theorem get_or_create_product_ok (st : Importer) (pd : ProductData) (pn : String)
    (hpn : pd.product_number = some pn) (hne : pn ≠ "") :
    ∃ st1 i, get_or_create_product st pd = .ok (st1, i) ∧
      st1.stats.errors = st.stats.errors ∧
      st1.stats.prices_added = st.stats.prices_added ∧
      st1.stats.products_added + st1.stats.products_updated =
        st.stats.products_added + st.stats.products_updated + 1 ∧
      st1.current.prices = st.current.prices ∧
      st1.current.nextPriceId = st.current.nextPriceId ∧
      st1.committed = st.committed ∧
      ∃ p, p ∈ st1.current.products ∧ p.product_number = pn ∧
        p.description = pd.description ∧ p.category = pd.category ∧
        p.unit = pd.unit := by
  cases hf : st.current.products.find? (fun x => x.product_number == pn) with
  | none =>
    rw [get_or_create_create st pd pn hpn hne hf]
    refine ⟨_, _, rfl, rfl, rfl, ?_, rfl, rfl, rfl, ?_⟩
    · show st.stats.products_added + 1 + st.stats.products_updated =
        st.stats.products_added + st.stats.products_updated + 1
      omega
    · exact ⟨_, List.mem_append_right _ (List.mem_singleton_self _), rfl, rfl, rfl, rfl⟩
  | some p =>
    have hpmem := List.mem_of_find?_eq_some hf
    have hppn : p.product_number = pn := by
      have := List.find?_some hf
      simpa using this
    rw [get_or_create_update st pd pn p hpn hne hf]
    refine ⟨_, _, rfl, rfl, rfl, rfl, rfl, rfl, rfl, ?_⟩
    refine ⟨_, List.mem_map_of_mem (fun q : Product =>
      if q.id = p.id then
        { q with description := pd.description, category := pd.category,
                 unit := pd.unit }
      else q) hpmem, ?_, ?_, ?_, ?_⟩ <;> simp [hppn]

/-- Counterexample to C4: a call whose price is `NaN` is NOT logged as
skipped.  Processing a single row with a valid product number and a `NaN`
price counts it as imported (`imported_count` = 1, `skipped_count` = 0),
records no error and inserts no observation — nothing marks the skip
anywhere. -/
theorem missing_price_skip_log_cex :
    (runRowsFrom "2024-01-01" "f" initImporter 0
        [⟨some "P1", none, none, none, .pynan⟩]).2 = (1, 0) ∧
    (runRowsFrom "2024-01-01" "f" initImporter 0
        [⟨some "P1", none, none, none, .pynan⟩]).1.stats.errors = [] ∧
    (runRowsFrom "2024-01-01" "f" initImporter 0
        [⟨some "P1", none, none, none, .pynan⟩]).1.current.prices = [] := by
  decide

/-- C4 amended: `add_price` distinguishes missing from malformed prices, but
a missing (`None`/`NaN`) price is a silent no-op — no observation, nothing
appended to the error list, and nothing recorded as skipped: the enclosing
row still counts as imported, not skipped.  A present-but-unparseable price
appends exactly one error entry, leaves the database untouched and returns
without raising, so the caller continues. -/
theorem missing_vs_malformed_price (st : Importer) (pid : ℕ)
    (vf sf fn s pn : String) (d c u : Option String) (idx : ℕ)
    (hs : pyFloatOfString s = none) (hpn1 : pn ≠ "") (hpn2 : pn ≠ "nan") :
    add_price st pid .pynone vf sf = st ∧
    add_price st pid .pynan vf sf = st ∧
    (add_price st pid (.pystr s) vf sf).current = st.current ∧
    (add_price st pid (.pystr s) vf sf).stats.errors.length =
      st.stats.errors.length + 1 ∧
    (runRowsFrom vf fn st idx [⟨some pn, d, c, u, .pynan⟩]).2 = (1, 0) ∧
    (runRowsFrom vf fn st idx [⟨some pn, d, c, u, .pynan⟩]).1.stats.errors =
      st.stats.errors ∧
    (runRowsFrom vf fn st idx [⟨some pn, d, c, u, .pynan⟩]).1.current.prices =
      st.current.prices := by
  have hstr : pyFloat (.pystr s) = none := hs
  obtain ⟨st1, i, hok, herr, _, _, hprices, _, _, _⟩ :=
    get_or_create_product_ok st ⟨some pn, d, c, u⟩ pn rfl hpn1
  have hproc : processRow st vf fn idx ⟨some pn, d, c, u, .pynan⟩ =
      (st1, .imported) := by
    simp only [processRow]
    rw [if_neg (not_or.mpr ⟨hpn1, hpn2⟩)]
    rw [hok]
    show (add_price st1 i PyVal.pynan vf fn, RowOutcome.imported) = _
    rw [add_price_current_NA st1 i .pynan vf fn rfl]
  have hrun : runRowsFrom vf fn st idx [⟨some pn, d, c, u, .pynan⟩] =
      (st1, 1, 0) := by
    simp [runRowsFrom, hproc]
  rw [add_price_current_NA st pid .pynone vf sf rfl]
  rw [add_price_current_NA st pid .pynan vf sf rfl]
  rw [add_price_err_state st pid (.pystr s) vf sf rfl hstr]
  rw [hrun]
  exact ⟨rfl, rfl, rfl, by simp, rfl, herr, hprices⟩

/-- Witness for C4 amended at concrete inputs. -/
theorem missing_vs_malformed_price_witness :
    pyFloatOfString "abc" = none ∧ ("P1" : String) ≠ "" ∧ ("P1" : String) ≠ "nan" ∧
    (add_price initImporter 1 .pynone "2024-01-01" "f" = initImporter ∧
     add_price initImporter 1 .pynan "2024-01-01" "f" = initImporter ∧
     (add_price initImporter 1 (.pystr "abc") "2024-01-01" "f").current =
       initImporter.current ∧
     (add_price initImporter 1 (.pystr "abc") "2024-01-01" "f").stats.errors.length =
       initImporter.stats.errors.length + 1 ∧
     (runRowsFrom "2024-01-01" "f" initImporter 0
         [⟨some "P1", none, none, none, .pynan⟩]).2 = (1, 0) ∧
     (runRowsFrom "2024-01-01" "f" initImporter 0
         [⟨some "P1", none, none, none, .pynan⟩]).1.stats.errors =
       initImporter.stats.errors ∧
     (runRowsFrom "2024-01-01" "f" initImporter 0
         [⟨some "P1", none, none, none, .pynan⟩]).1.current.prices =
       initImporter.current.prices) := by
  refine ⟨by decide, by decide, by decide, ?_⟩
  exact missing_vs_malformed_price initImporter 1 "2024-01-01" "f" "f" "abc" "P1"
    none none none 0 (by decide) (by decide) (by decide)

/-- C10: a row with a valid product number but a present, non-numeric price
is not atomic as a row: the catalog write persists — the product exists with
the row's supplied attributes and the products_added/products_updated total
is incremented — while one price error is recorded for the same row and no
observation is inserted. -/
theorem row_catalog_write_not_atomic (st : Importer) (vf fn : String) (idx : ℕ)
    (pn s : String) (d c u : Option String)
    (hpn1 : pn ≠ "") (hpn2 : pn ≠ "nan") (hs : pyFloatOfString s = none) :
    (processRow st vf fn idx ⟨some pn, d, c, u, .pystr s⟩).2 = .imported ∧
    (processRow st vf fn idx ⟨some pn, d, c, u, .pystr s⟩).1.current.prices =
      st.current.prices ∧
    (processRow st vf fn idx ⟨some pn, d, c, u, .pystr s⟩).1.stats.prices_added =
      st.stats.prices_added ∧
    (processRow st vf fn idx ⟨some pn, d, c, u, .pystr s⟩).1.stats.errors.length =
      st.stats.errors.length + 1 ∧
    (processRow st vf fn idx ⟨some pn, d, c, u, .pystr s⟩).1.stats.products_added +
      (processRow st vf fn idx ⟨some pn, d, c, u, .pystr s⟩).1.stats.products_updated =
      st.stats.products_added + st.stats.products_updated + 1 ∧
    ∃ p, p ∈ (processRow st vf fn idx ⟨some pn, d, c, u, .pystr s⟩).1.current.products ∧
      p.product_number = pn ∧ p.description = d ∧ p.category = c ∧ p.unit = u := by
  have hstr : pyFloat (.pystr s) = none := hs
  obtain ⟨st1, i, hok, herr, hpadd, hcnt, hprices, _, _, p, hpmem, hppn, hpd, hpc, hpu⟩ :=
    get_or_create_product_ok st ⟨some pn, d, c, u⟩ pn rfl hpn1
  have hproc : processRow st vf fn idx ⟨some pn, d, c, u, .pystr s⟩ =
      (add_price st1 i (.pystr s) vf fn, .imported) := by
    simp only [processRow]
    rw [if_neg (not_or.mpr ⟨hpn1, hpn2⟩)]
    rw [hok]
  rw [hproc, add_price_err_state st1 i (.pystr s) vf fn rfl hstr]
  refine ⟨rfl, hprices, hpadd, ?_, hcnt, p, hpmem, hppn, hpd, hpc, hpu⟩
  show (st1.stats.errors ++ [_]).length = st.stats.errors.length + 1
  rw [List.length_append, herr]
  rfl

/-- Witness for C10 at concrete inputs. -/
theorem row_catalog_write_not_atomic_witness :
    ("P1" : String) ≠ "" ∧ ("P1" : String) ≠ "nan" ∧ pyFloatOfString "xyz" = none ∧
    ((processRow initImporter "2024-01-01" "f" 0
        ⟨some "P1", some "D", none, none, .pystr "xyz"⟩).2 = .imported ∧
     (processRow initImporter "2024-01-01" "f" 0
        ⟨some "P1", some "D", none, none, .pystr "xyz"⟩).1.current.prices =
       initImporter.current.prices ∧
     (processRow initImporter "2024-01-01" "f" 0
        ⟨some "P1", some "D", none, none, .pystr "xyz"⟩).1.stats.prices_added =
       initImporter.stats.prices_added ∧
     (processRow initImporter "2024-01-01" "f" 0
        ⟨some "P1", some "D", none, none, .pystr "xyz"⟩).1.stats.errors.length =
       initImporter.stats.errors.length + 1 ∧
     (processRow initImporter "2024-01-01" "f" 0
        ⟨some "P1", some "D", none, none, .pystr "xyz"⟩).1.stats.products_added +
       (processRow initImporter "2024-01-01" "f" 0
         ⟨some "P1", some "D", none, none, .pystr "xyz"⟩).1.stats.products_updated =
       initImporter.stats.products_added + initImporter.stats.products_updated + 1 ∧
     ∃ p, p ∈ (processRow initImporter "2024-01-01" "f" 0
         ⟨some "P1", some "D", none, none, .pystr "xyz"⟩).1.current.products ∧
       p.product_number = "P1" ∧ p.description = some "D" ∧ p.category = none ∧
       p.unit = none) := by
  refine ⟨by decide, by decide, by decide, ?_⟩
  exact row_catalog_write_not_atomic initImporter "2024-01-01" "f" 0 "P1" "xyz"
    (some "D") none none (by decide) (by decide) (by decide)

/-- C5: resolving the same nonempty, previously unseen product_number twice:
the first call creates exactly one new product and returns its fresh id, the
second call returns the same id, overwrites description/category/unit
unconditionally with its own supplied values, and creates nothing. -/
theorem product_resolution_idempotent (st : Importer) (pd1 pd2 : ProductData)
    (pn : String) (h1 : pd1.product_number = some pn)
    (h2 : pd2.product_number = some pn) (hne : pn ≠ "")
    (hnew : ∀ p ∈ st.current.products, p.product_number ≠ pn) :
    ∃ st1 st2,
      get_or_create_product st pd1 = .ok (st1, st.current.nextProductId) ∧
      get_or_create_product st1 pd2 = .ok (st2, st.current.nextProductId) ∧
      st1.current.products.length = st.current.products.length + 1 ∧
      st1.stats.products_added = st.stats.products_added + 1 ∧
      st2.current.products.length = st1.current.products.length ∧
      st2.stats.products_updated = st1.stats.products_updated + 1 ∧
      st2.current.products.find? (fun p => p.product_number == pn) =
        some { id := st.current.nextProductId, product_number := pn,
               description := pd2.description, category := pd2.category,
               unit := pd2.unit } := by
  have hfind1 : st.current.products.find? (fun p => p.product_number == pn) = none := by
    rw [List.find?_eq_none]
    intro x hx
    simpa using hnew x hx
  have hc1 := get_or_create_create st pd1 pn h1 hne hfind1
  have hfind2 :
      (st.current.products ++
        [({ id := st.current.nextProductId, product_number := pn,
            description := pd1.description, category := pd1.category,
            unit := pd1.unit } : Product)]).find?
        (fun p => p.product_number == pn) =
      some { id := st.current.nextProductId, product_number := pn,
             description := pd1.description, category := pd1.category,
             unit := pd1.unit } := by
    rw [List.find?_append, hfind1, Option.none_or]
    simp [List.find?]
  have hc2 := get_or_create_update
    ({ st with
       current := { st.current with
         products := st.current.products ++
           [{ id := st.current.nextProductId, product_number := pn,
              description := pd1.description, category := pd1.category,
              unit := pd1.unit }],
         nextProductId := st.current.nextProductId + 1 },
       stats := { st.stats with
         products_added := st.stats.products_added + 1 } })
    pd2 pn
    { id := st.current.nextProductId, product_number := pn,
      description := pd1.description, category := pd1.category,
      unit := pd1.unit }
    h2 hne hfind2
  refine ⟨_, _, hc1, hc2, ?_, rfl, ?_, rfl, ?_⟩
  · show (st.current.products ++ [_]).length = st.current.products.length + 1
    simp
  · show ((st.current.products ++ [_]).map _).length = (st.current.products ++ [_]).length
    simp
  · show ((st.current.products ++
      [({ id := st.current.nextProductId, product_number := pn,
          description := pd1.description, category := pd1.category,
          unit := pd1.unit } : Product)]).map (fun q : Product =>
        if q.id = st.current.nextProductId then
          { q with description := pd2.description, category := pd2.category,
                   unit := pd2.unit }
        else q)).find? (fun p => p.product_number == pn) = some _
    rw [List.map_append, List.find?_append]
    have hmap : ((st.current.products).map (fun q : Product =>
        if q.id = st.current.nextProductId then
          { q with description := pd2.description, category := pd2.category,
                   unit := pd2.unit }
        else q)).find? (fun p => p.product_number == pn) = none := by
      rw [List.find?_eq_none]
      intro x hx
      rcases List.mem_map.mp hx with ⟨y, hy, rfl⟩
      have hy2 : (if y.id = st.current.nextProductId then
          ({ y with description := pd2.description, category := pd2.category,
                    unit := pd2.unit } : Product)
        else y).product_number = y.product_number := by
        split <;> rfl
      simp [hy2, hnew y hy]
    rw [hmap, Option.none_or]
    simp [List.find?]

/-- Witness for C5 at concrete inputs: product "P1" unseen in a fresh store,
first call supplies one attribute set, second call another. -/
theorem product_resolution_idempotent_witness :
    (∀ p ∈ initImporter.current.products, p.product_number ≠ "P1") ∧
    (∃ st1 st2,
      get_or_create_product initImporter ⟨some "P1", some "d1", some "c1", some "u1"⟩ =
        .ok (st1, initImporter.current.nextProductId) ∧
      get_or_create_product st1 ⟨some "P1", none, some "c2", none⟩ =
        .ok (st2, initImporter.current.nextProductId) ∧
      st1.current.products.length = initImporter.current.products.length + 1 ∧
      st1.stats.products_added = initImporter.stats.products_added + 1 ∧
      st2.current.products.length = st1.current.products.length ∧
      st2.stats.products_updated = st1.stats.products_updated + 1 ∧
      st2.current.products.find? (fun p => p.product_number == "P1") =
        some { id := initImporter.current.nextProductId, product_number := "P1",
               description := none, category := some "c2", unit := none }) := by
  have h : ∀ p ∈ initImporter.current.products, p.product_number ≠ "P1" := by
    simp [initImporter, emptyDB]
  exact ⟨h, product_resolution_idempotent initImporter
    ⟨some "P1", some "d1", some "c1", some "u1"⟩
    ⟨some "P1", none, some "c2", none⟩ "P1" rfl rfl (by decide) h⟩

/-- The five-record batch of C6: only record #3 carries a non-numeric price. -/
def c6rows : List RawRow :=
  [⟨some "P1", some "d1", none, none, .pynum 1⟩,
   ⟨some "P2", some "d2", none, none, .pynum 2⟩,
   ⟨some "P3", some "d3", none, none, .pystr "abc"⟩,
   ⟨some "P4", some "d4", none, none, .pynum 4⟩,
   ⟨some "P5", some "d5", none, none, .pynum 5⟩]

/-- C6: importing a batch of five records where only record #3 has a
non-numeric price yields exactly one error, four recorded price
observations (for records 1, 2, 4, 5), and those writes are committed at the
end of the batch — no per-row error aborts or rolls back the rest. -/
theorem per_row_failure_isolation :
    (import_excel_rows initImporter "2024-01-01" "Publications-20240101.xlsx"
      c6rows).2 = true ∧
    (import_excel_rows initImporter "2024-01-01" "Publications-20240101.xlsx"
      c6rows).1.stats.errors.length = 1 ∧
    (import_excel_rows initImporter "2024-01-01" "Publications-20240101.xlsx"
      c6rows).1.stats.prices_added = 4 ∧
    (import_excel_rows initImporter "2024-01-01" "Publications-20240101.xlsx"
      c6rows).1.committed.prices.map (fun r => r.product_id) = [1, 2, 4, 5] ∧
    (import_excel_rows initImporter "2024-01-01" "Publications-20240101.xlsx"
      c6rows).1.committed.prices.length = 4 ∧
    (import_excel_rows initImporter "2024-01-01" "Publications-20240101.xlsx"
      c6rows).1.committed =
    (import_excel_rows initImporter "2024-01-01" "Publications-20240101.xlsx"
      c6rows).1.current := by
  decide

theorem add_price_committed (st : Importer) (pid : ℕ) (pr : PyVal) (vf sf : String) :
    (add_price st pid pr vf sf).committed = st.committed := by
  unfold add_price
  by_cases hna : pyIsNA pr = true
  · rw [if_pos hna]
  · rw [if_neg hna]
    cases hfq : pyFloat pr <;> rfl

theorem get_or_create_committed_of_ok (st : Importer) (pd : ProductData)
    (st1 : Importer) (i : ℕ) (h : get_or_create_product st pd = .ok (st1, i)) :
    st1.committed = st.committed := by
  unfold get_or_create_product at h
  split at h
  · exact absurd h (by simp)
  · split at h
    · exact absurd h (by simp)
    · split at h
      · simp only [Except.ok.injEq, Prod.mk.injEq] at h
        obtain ⟨h1, h2⟩ := h
        subst h1
        rfl
      · simp only [Except.ok.injEq, Prod.mk.injEq] at h
        obtain ⟨h1, h2⟩ := h
        subst h1
        rfl

theorem processRow_committed (st : Importer) (vf fn : String) (idx : ℕ) (row : RawRow) :
    (processRow st vf fn idx row).1.committed = st.committed := by
  unfold processRow
  split
  · rfl
  · split
    · rfl
    · split
      · rfl
      · rename_i st1 pid heq
        show (add_price st1 pid row.price vf fn).committed = st.committed
        rw [add_price_committed]
        exact get_or_create_committed_of_ok st _ st1 pid heq

theorem runRowsFrom_committed (vf fn : String) (rows : List RawRow) :
    ∀ (st : Importer) (idx : ℕ),
      (runRowsFrom vf fn st idx rows).1.committed = st.committed := by
  induction rows with
  | nil => intro st idx; rfl
  | cons row rest ih =>
    intro st idx
    have h1 := processRow_committed st vf fn idx row
    have h2 := ih (processRow st vf fn idx row).1 (idx + 1)
    simp only [runRowsFrom]
    cases hoc : (processRow st vf fn idx row).2
    all_goals
      show (runRowsFrom vf fn (processRow st vf fn idx row).1 (idx + 1) rest).1.committed
          = st.committed
    all_goals exact h2.trans h1

/-- C7: a catastrophic failure outside the per-row handling, occurring after
any number of rows but before the end-of-batch commit, rolls every write of
the batch back: both database snapshots equal the pre-batch state, the call
reports failure, and the last recorded error is the batch-level
"Fehler bei file" entry, not a per-row "Zeile n" entry. -/
theorem batch_failure_rolls_back (st : Importer) (vf fn : String)
    (rows : List RawRow) (k : ℕ) (msg : String)
    (hsync : st.current = st.committed) :
    (import_excel_rows_aborted st vf fn rows k msg).1.current = st.current ∧
    (import_excel_rows_aborted st vf fn rows k msg).1.committed = st.committed ∧
    (import_excel_rows_aborted st vf fn rows k msg).2 = false ∧
    (import_excel_rows_aborted st vf fn rows k msg).1.stats.errors.getLast? =
      some ("Fehler bei " ++ fn ++ ": " ++ msg) := by
  have hcomm := runRowsFrom_committed vf fn (rows.take k) st 0
  refine ⟨?_, ?_, rfl, ?_⟩
  · show (runRowsFrom vf fn st 0 (rows.take k)).1.committed = st.current
    rw [hcomm, hsync]
  · show (runRowsFrom vf fn st 0 (rows.take k)).1.committed = st.committed
    exact hcomm
  · show ((runRowsFrom vf fn st 0 (rows.take k)).1.stats.errors ++
      ["Fehler bei " ++ fn ++ ": " ++ msg]).getLast? = _
    rw [List.getLast?_concat]

/-- Witness for C7: the batch of C6 aborted after two rows on a fresh store. -/
theorem batch_failure_rolls_back_witness :
    initImporter.current = initImporter.committed ∧
    ((import_excel_rows_aborted initImporter "2024-01-01" "f.xlsx" c6rows 2
        "database is locked").1.current = initImporter.current ∧
     (import_excel_rows_aborted initImporter "2024-01-01" "f.xlsx" c6rows 2
        "database is locked").1.committed = initImporter.committed ∧
     (import_excel_rows_aborted initImporter "2024-01-01" "f.xlsx" c6rows 2
        "database is locked").2 = false ∧
     (import_excel_rows_aborted initImporter "2024-01-01" "f.xlsx" c6rows 2
        "database is locked").1.stats.errors.getLast? =
       some ("Fehler bei " ++ "f.xlsx" ++ ": " ++ "database is locked")) :=
  ⟨rfl, batch_failure_rolls_back initImporter "2024-01-01" "f.xlsx" c6rows 2
    "database is locked" rfl⟩

end BagArchive
